import Mathlib

/-
Shallow embedding of the devesaas dashboard pages
(src/pages/ClientManagement.tsx, src/pages/Tasks.tsx and the
presentational ClientTable component).

The remote document store is modelled as an explicit list of documents,
each store document carrying its store-assigned identifier (`docId`)
next to its field map.  Every asynchronous store call is given an
explicit success flag (`checkOk`, `writeOk`, `fetchOk`, `deleteOk`):
`true` models the promise resolving, `false` models it rejecting into
the surrounding catch block.  Alerts shown through `showAlert` are
collected in a list, and `calls` counts the store operations a handler
issues (used to express that a declined confirmation issues none).
-/

/-- Model of the JavaScript `String.prototype.toLowerCase` used by the
pages, mapping the basic-latin upper-case range to lower case,
character by character. -/
def lowerChar (c : Char) : Char :=
  if 65 ≤ c.toNat ∧ c.toNat ≤ 90 then Char.ofNat (c.toNat + 32) else c

/-- Lower-casing of a whole string, as `newClient.email.toLowerCase()`
performs it. -/
def toLowerCase (s : String) : String := ⟨s.data.map lowerChar⟩

/-- Case-insensitive equality of two strings: equal after lower-casing. -/
def ciEq (a b : String) : Prop := toLowerCase a = toLowerCase b

instance (a b : String) : Decidable (ciEq a b) :=
  inferInstanceAs (Decidable (toLowerCase a = toLowerCase b))

namespace ClientManagement

/-- A document of the `clients` collection as the store holds it:
store-assigned identifier plus the written field map.  `idField` is an
`id` field inside the document body (absent on freshly added documents,
written by the edit path, which spreads the local record).  The
optional onboarding metadata mirrors the `Client` interface. -/
structure ClientDoc where
  docId : String
  name : String
  email : String
  phone : String
  userId : String
  idField : Option String := none
  selfOnboarded : Option Bool := none
  onboardedAt : Option String := none
  status : Option String := none
deriving Repr, DecidableEq

/-- The local `Client` record of the page (the `Client` interface):
what `fetchClients` builds per document and what the edit buffer holds. -/
structure Client where
  id : String
  name : String
  email : String
  phone : String
  selfOnboarded : Option Bool := none
  onboardedAt : Option String := none
  status : Option String := none
deriving Repr, DecidableEq

/-- The `newClient` form buffer: name, email and phone only. -/
structure ClientDraft where
  name : String
  email : String
  phone : String
deriving Repr, DecidableEq

/-- The page-controller state the handlers touch: local list, add-modal
flag, add buffer and edit buffer. -/
structure PageState where
  clients : List Client
  isModalOpen : Bool
  newClient : ClientDraft
  editingClient : Option Client
deriving Repr, DecidableEq

/-- Constructor helper for `PageState`. -/
def mkState (cls : List Client) (m : Bool) (draft : ClientDraft)
    (ec : Option Client) : PageState :=
  ⟨cls, m, draft, ec⟩

/-- Result of running one handler: store after the call, page state
after the call, alerts shown, and how many store operations were
issued. -/
structure Outcome where
  store : List ClientDoc
  ui : PageState
  alerts : List String
  calls : Nat
deriving Repr, DecidableEq

/-- The owner-scoped list query of `fetchClients`:
`where('userId', '==', currentUser.uid)`. -/
def clientsQuery (store : List ClientDoc) (uid : String) : List ClientDoc :=
  store.filter (fun c => c.userId == uid)

/-- The mapping `doc => ({ id: doc.id, ...doc.data() })`: the spread
comes second, so an `id` field stored inside the body overrides the
store-assigned identifier. -/
def clientOfDoc (d : ClientDoc) : Client :=
  { id := d.idField.getD d.docId, name := d.name, email := d.email,
    phone := d.phone, selfOnboarded := d.selfOnboarded,
    onboardedAt := d.onboardedAt, status := d.status }

/-- `fetchClients`: no-op without a user; on success replace the local
list by the owner-scoped query result; on failure alert and leave the
state untouched. -/
def fetchClients (currentUser : Option String) (fetchOk : Bool)
    (store : List ClientDoc) (ui : PageState) : PageState × List String :=
  match currentUser with
  | none => (ui, [])
  | some uid =>
    if fetchOk then
      ({ ui with clients := (clientsQuery store uid).map clientOfDoc }, [])
    else
      (ui, ["Failed to fetch clients"])

/-- The duplicate-email existence check of `handleAddClient` and
`handleEditClient`: owner scoped, exact match on the lower-cased
buffer email. -/
def emailDupQuery (store : List ClientDoc) (uid email : String) :
    List ClientDoc :=
  store.filter (fun c => c.userId == uid && c.email == toLowerCase email)

/-- The duplicate-phone existence check: owner scoped, exact match. -/
def phoneDupQuery (store : List ClientDoc) (uid phone : String) :
    List ClientDoc :=
  store.filter (fun c => c.userId == uid && c.phone == phone)

/-- `handleAddClient`: guard on the current user, run the two
existence checks, abort on a non-empty snapshot, otherwise write the
draft with lower-cased email and attached owner identifier and re-run
the list fetch. -/
def handleAddClient (currentUser : Option String)
    (checkOk writeOk fetchOk : Bool) (freshId : String)
    (store : List ClientDoc) (ui : PageState) : Outcome :=
  match currentUser with
  | none =>
    { store := store, ui := ui,
      alerts := ["You must be logged in to add a client."], calls := 0 }
  | some uid =>
    if !checkOk then
      { store := store, ui := ui,
        alerts := ["Error checking for duplicate clients."], calls := 2 }
    else
      let emailSnapshot := emailDupQuery store uid ui.newClient.email
      let phoneSnapshot := phoneDupQuery store uid ui.newClient.phone
      if !emailSnapshot.isEmpty then
        { store := store, ui := ui,
          alerts := ["A client with this email already exists."], calls := 2 }
      else if !phoneSnapshot.isEmpty then
        { store := store, ui := ui,
          alerts := ["A client with this phone number already exists."],
          calls := 2 }
      else if writeOk then
        let newDoc : ClientDoc :=
          { docId := freshId, name := ui.newClient.name,
            email := toLowerCase ui.newClient.email,
            phone := ui.newClient.phone, userId := uid }
        let store' := store ++ [newDoc]
        let ui' := { ui with
          isModalOpen := false
          newClient := { name := "", email := "", phone := "" } }
        let fr := fetchClients (some uid) fetchOk store' ui'
        { store := store', ui := fr.1,
          alerts := "Client added successfully" :: fr.2, calls := 4 }
      else
        { store := store, ui := ui,
          alerts := ["Failed to add client. Please try again later."],
          calls := 3 }

/-- The merge `updateDoc(clientRef, { ...editingClient, email:
editingClient.email.toLowerCase() })` applied to one store document:
every buffer field is written, including the local `id` into the body;
optional buffer fields that are absent leave the stored value.  The
stored `userId` is untouched (the buffer holds no such field in the
`Client` interface; a buffer taken from the owner-scoped fetch carries
the same owner back unchanged). -/
def applyEditUpdate (buf : Client) (d : ClientDoc) : ClientDoc :=
  if d.docId == buf.id then
    { d with
      name := buf.name
      email := toLowerCase buf.email
      phone := buf.phone
      idField := some buf.id
      selfOnboarded := buf.selfOnboarded.orElse (fun _ => d.selfOnboarded)
      onboardedAt := buf.onboardedAt.orElse (fun _ => d.onboardedAt)
      status := buf.status.orElse (fun _ => d.status) }
  else d

/-- `handleEditClient`: no-op without an edit buffer; the check phase
dereferences `currentUser.uid` with no null guard, so with no current
user the thrown error is caught by the surrounding catch and the
generic check-failure alert is shown before any store call; otherwise
run the two checks excluding the record's own identifier, abort on a
match, else overwrite the document and re-run the list fetch. -/
def handleEditClient (currentUser : Option String)
    (checkOk writeOk fetchOk : Bool) (store : List ClientDoc)
    (ui : PageState) : Outcome :=
  match ui.editingClient with
  | none => { store := store, ui := ui, alerts := [], calls := 0 }
  | some buf =>
    match currentUser with
    | none =>
      { store := store, ui := ui,
        alerts := ["Error checking for duplicate clients."], calls := 0 }
    | some uid =>
      if !checkOk then
        { store := store, ui := ui,
          alerts := ["Error checking for duplicate clients."], calls := 2 }
      else
        let emailSnapshot := emailDupQuery store uid buf.email
        let phoneSnapshot := phoneDupQuery store uid buf.phone
        if emailSnapshot.any (fun d => d.docId != buf.id) then
          { store := store, ui := ui,
            alerts := ["Another client with this email already exists."],
            calls := 2 }
        else if phoneSnapshot.any (fun d => d.docId != buf.id) then
          { store := store, ui := ui,
            alerts := ["Another client with this phone number already exists."],
            calls := 2 }
        else if writeOk then
          let store' := store.map (applyEditUpdate buf)
          let ui' := { ui with editingClient := none }
          let fr := fetchClients (some uid) fetchOk store' ui'
          { store := store', ui := fr.1,
            alerts := "Client updated successfully" :: fr.2, calls := 4 }
        else
          { store := store, ui := ui,
            alerts := ["Failed to update client. Please try again later."],
            calls := 3 }

/-- `handleDeleteClient`: gated on `window.confirm`; declined means no
store call at all; confirmed deletes the document by identifier and
re-runs the list fetch. -/
def handleDeleteClient (confirmed deleteOk fetchOk : Bool) (id : String)
    (currentUser : Option String) (store : List ClientDoc)
    (ui : PageState) : Outcome :=
  if confirmed then
    if deleteOk then
      let store' := store.filter (fun d => d.docId != id)
      let fr := fetchClients currentUser fetchOk store' ui
      { store := store', ui := fr.1,
        alerts := "Client deleted successfully" :: fr.2, calls := 2 }
    else
      { store := store, ui := ui,
        alerts := ["Failed to delete client. Please try again later."],
        calls := 1 }
  else
    { store := store, ui := ui, alerts := [], calls := 0 }

/-- The mount effect computing the onboarding link: with a user it is
the base origin, the fixed segment and the user identifier; with no
user the previous link state is kept. -/
def onboardEffect (currentUser : Option String) (baseUrl link : String) :
    String :=
  match currentUser with
  | some u => baseUrl ++ "/onboard/" ++ u
  | none => link

end ClientManagement

namespace Tasks

/-- A document of the `tasks` collection as the store holds it.
`idField` and `updatedAt` are body fields the edit path writes
(the spread of the local record and the fresh timestamp). -/
structure TaskDoc where
  docId : String
  title : String
  description : String
  status : String
  priority : String
  dueDate : Option String := none
  createdAt : String
  userId : String
  idField : Option String := none
  updatedAt : Option String := none
deriving Repr, DecidableEq

/-- The local `Task` record (the `Task` interface). -/
structure Task where
  id : String
  title : String
  description : String
  status : String
  priority : String
  dueDate : Option String := none
  createdAt : String
  userId : String
deriving Repr, DecidableEq

/-- The `newTask` buffer: `Omit` of identifier, owner and creation
timestamp, so it does carry a `status` field. -/
structure TaskDraft where
  title : String
  description : String
  status : String
  priority : String
  dueDate : Option String := none
deriving Repr, DecidableEq

/-- The task page state the handlers touch. -/
structure TasksState where
  tasks : List Task
  isModalOpen : Bool
  newTask : TaskDraft
  editingTask : Option Task
deriving Repr, DecidableEq

/-- Constructor helper for `TasksState`. -/
def mkTasksState (ts : List Task) (m : Bool) (draft : TaskDraft)
    (et : Option Task) : TasksState :=
  ⟨ts, m, draft, et⟩

/-- The owner-scoped list query of `fetchTasks`. -/
def tasksQuery (store : List TaskDoc) (uid : String) : List TaskDoc :=
  store.filter (fun d => d.userId == uid)

/-- The mapping `doc => ({ id: doc.id, ...doc.data() })` for tasks. -/
def taskOfDoc (d : TaskDoc) : Task :=
  { id := d.idField.getD d.docId, title := d.title,
    description := d.description, status := d.status,
    priority := d.priority, dueDate := d.dueDate,
    createdAt := d.createdAt, userId := d.userId }

/-- `fetchTasks`: replace the local list on success, keep it otherwise
(this page only logs fetch errors). -/
def fetchTasks (currentUser : Option String) (fetchOk : Bool)
    (store : List TaskDoc) (ui : TasksState) : TasksState :=
  match currentUser with
  | none => ui
  | some uid =>
    if fetchOk then
      { ui with tasks := (tasksQuery store uid).map taskOfDoc }
    else ui

/-- The merge `updateDoc(taskRef, { ...editingTask, updatedAt })`
applied to one store document: the whole buffer is spread into the
body, including the local `id`, plus the fresh update timestamp. -/
def applyTaskEdit (t : Task) (now : String) (d : TaskDoc) : TaskDoc :=
  if d.docId == t.id then
    { d with
      title := t.title
      description := t.description
      status := t.status
      priority := t.priority
      dueDate := t.dueDate.orElse (fun _ => d.dueDate)
      createdAt := t.createdAt
      userId := t.userId
      idField := some t.id
      updatedAt := some now }
  else d

/-- The empty `newTask` buffer the submit handler resets to. -/
def emptyDraft : TaskDraft :=
  { title := "", description := "", status := "todo", priority := "medium" }

/-- `handleAddTask`, the shared submit handler: no-op without a user;
with an edit target it overwrites the document from the buffer plus an
update timestamp; otherwise it adds a new document built from the
draft with the status field overridden to `todo`, the owner identifier
and the creation timestamp; then it closes the modal, resets the
buffers and re-runs the list fetch.  On a write failure the catch
fires before any of the state resets. -/
def handleAddTask (currentUser : Option String) (writeOk fetchOk : Bool)
    (now freshId : String) (store : List TaskDoc) (ui : TasksState) :
    List TaskDoc × TasksState :=
  match currentUser with
  | none => (store, ui)
  | some uid =>
    match ui.editingTask with
    | some t =>
      if writeOk then
        let store' := store.map (applyTaskEdit t now)
        let ui' := { ui with
          isModalOpen := false
          editingTask := none
          newTask := emptyDraft }
        (store', fetchTasks (some uid) fetchOk store' ui')
      else (store, ui)
    | none =>
      if writeOk then
        let newDoc : TaskDoc :=
          { docId := freshId, title := ui.newTask.title,
            description := ui.newTask.description, status := "todo",
            priority := ui.newTask.priority, dueDate := ui.newTask.dueDate,
            createdAt := now, userId := uid }
        let store' := store ++ [newDoc]
        let ui' := { ui with
          isModalOpen := false
          editingTask := none
          newTask := emptyDraft }
        (store', fetchTasks (some uid) fetchOk store' ui')
      else (store, ui)

/-- A `Partial` task update as `updateDoc` receives it: only the
fields present are written. -/
structure TaskUpdate where
  title : Option String := none
  description : Option String := none
  status : Option String := none
  priority : Option String := none
  dueDate : Option String := none
deriving Repr, DecidableEq

/-- Field-wise merge of a partial update into one stored document. -/
def applyTaskUpdate (u : TaskUpdate) (d : TaskDoc) : TaskDoc :=
  { d with
    title := u.title.getD d.title
    description := u.description.getD d.description
    status := u.status.getD d.status
    priority := u.priority.getD d.priority
    dueDate := u.dueDate.orElse (fun _ => d.dueDate) }

/-- `handleUpdateTask`: partial update of one document by identifier. -/
def handleUpdateTask (taskId : String) (u : TaskUpdate)
    (store : List TaskDoc) : List TaskDoc :=
  store.map (fun d => if d.docId == taskId then applyTaskUpdate u d else d)

/-- The inline status control of `TaskColumn`: it calls
`handleUpdateTask(task.id, { status })`, an update holding only the
status field. -/
def inlineStatusChange (taskId s : String) (store : List TaskDoc) :
    List TaskDoc :=
  handleUpdateTask taskId { status := some s } store

/-- `handleDeleteTask`: confirmation-gated deletion by identifier. -/
def handleDeleteTask (confirmed deleteOk : Bool) (taskId : String)
    (store : List TaskDoc) : List TaskDoc :=
  if confirmed then
    if deleteOk then store.filter (fun d => d.docId != taskId) else store
  else store

/-- The per-column filtered view `getTasksByStatus`. -/
def getTasksByStatus (ts : List Task) (s : String) : List Task :=
  ts.filter (fun t => t.status == s)

end Tasks

section Lemmas

open ClientManagement Tasks

/-- A filtered list has `isEmpty = false` exactly when some element
satisfies the predicate. -/
theorem filter_isEmpty_eq_false {α : Type} (p : α → Bool) (l : List α) :
    (l.filter p).isEmpty = false ↔ ∃ a ∈ l, p a = true := by
  rw [Bool.eq_false_iff, Ne, List.isEmpty_iff, List.filter_eq_nil_iff]
  push_neg
  simp

/-- A filtered list has `isEmpty = true` exactly when no element
satisfies the predicate. -/
theorem filter_isEmpty_eq_true {α : Type} (p : α → Bool) (l : List α) :
    (l.filter p).isEmpty = true ↔ ∀ a ∈ l, ¬ p a = true := by
  rw [List.isEmpty_iff, List.filter_eq_nil_iff]

/-- Characterisation of an empty email-duplicate snapshot. -/
theorem emailDupQuery_empty_iff (store : List ClientDoc) (uid e : String) :
    (emailDupQuery store uid e).isEmpty = true ↔
      ∀ c ∈ store, c.userId = uid → c.email ≠ toLowerCase e := by
  rw [emailDupQuery, filter_isEmpty_eq_true]
  simp

/-- Characterisation of an empty phone-duplicate snapshot. -/
theorem phoneDupQuery_empty_iff (store : List ClientDoc) (uid p : String) :
    (phoneDupQuery store uid p).isEmpty = true ↔
      ∀ c ∈ store, c.userId = uid → c.phone ≠ p := by
  rw [phoneDupQuery, filter_isEmpty_eq_true]
  simp

/-- Under the invariant that stored emails of the owner are already
lower case, case-insensitive presence of the draft email coincides
with exact presence of its lower-cased form (the equality the code
queries for). -/
theorem emailDup_bridge (store : List ClientDoc) (uid e : String)
    (hnorm : ∀ c ∈ store, c.userId = uid → toLowerCase c.email = c.email) :
    (∃ c ∈ store, c.userId = uid ∧ ciEq c.email e) ↔
      ∃ c ∈ store, c.userId = uid ∧ c.email = toLowerCase e := by
  constructor
  · rintro ⟨c, hc, hu, hci⟩
    refine ⟨c, hc, hu, ?_⟩
    rw [← hnorm c hc hu]
    exact hci
  · rintro ⟨c, hc, hu, he⟩
    refine ⟨c, hc, hu, ?_⟩
    unfold ciEq
    rw [hnorm c hc hu, he]

/-- Characterisation of the edit-path duplicate test, which excludes
the record's own identifier. -/
theorem emailEditDup_any_iff (store : List ClientDoc) (uid e selfId : String) :
    (emailDupQuery store uid e).any (fun d => d.docId != selfId) = true ↔
      ∃ c ∈ store, c.userId = uid ∧ c.email = toLowerCase e ∧ c.docId ≠ selfId := by
  rw [List.any_eq_true]
  simp [emailDupQuery, List.mem_filter]
  tauto

/-- Characterisation of the edit-path phone duplicate test. -/
theorem phoneEditDup_any_iff (store : List ClientDoc) (uid p selfId : String) :
    (phoneDupQuery store uid p).any (fun d => d.docId != selfId) = true ↔
      ∃ c ∈ store, c.userId = uid ∧ c.phone = p ∧ c.docId ≠ selfId := by
  rw [List.any_eq_true]
  simp [phoneDupQuery, List.mem_filter]
  tauto

end Lemmas

section Claims

open ClientManagement Tasks

/-- Claim C2: every task created through the add form (no edit target
set) is persisted with status "todo" regardless of the status carried
by the creation draft, with the owner identifier and the creation
timestamp attached. -/
theorem handleAddTask_forces_todo (uid now freshId : String)
    (fetchOk : Bool) (store : List TaskDoc) (ts : List Task)
    (m : Bool) (draft : TaskDraft) :
    (handleAddTask (some uid) true fetchOk now freshId store
        (mkTasksState ts m draft none)).1 =
      store ++ [{
        docId := freshId
        title := draft.title
        description := draft.description
        status := "todo"
        priority := draft.priority
        dueDate := draft.dueDate
        createdAt := now
        userId := uid }] := rfl

/-- Claim C4: the inline status control issues an update holding only
the status field, so title, description, priority and due date of
every stored task are identical before and after it. -/
theorem inlineStatusChange_frame (taskId s : String)
    (store : List TaskDoc) :
    (inlineStatusChange taskId s store).map
        (fun d => (d.title, d.description, d.priority, d.dueDate)) =
      store.map (fun d => (d.title, d.description, d.priority, d.dueDate)) := by
  induction store with
  | nil => rfl
  | cons d ds ih =>
    simp only [inlineStatusChange, handleUpdateTask, List.map_cons] at ih ⊢
    rw [ih]
    by_cases h : (d.docId == taskId) = true
    · simp [h, applyTaskUpdate]
    · simp [h]

/-- Claim C5: a declined delete confirmation issues no store call and
leaves the stored collection (hence the next list result) unchanged;
a confirmed delete removes the document with that identifier and
re-runs the list query. -/
theorem handleDeleteClient_confirmation_gate (deleteOk fetchOk : Bool)
    (id uid : String) (store : List ClientDoc) (ui : PageState) :
    handleDeleteClient false deleteOk fetchOk id (some uid) store ui =
      { store := store, ui := ui, alerts := [], calls := 0 } ∧
    (handleDeleteClient true true true id (some uid) store ui).store =
      store.filter (fun d => d.docId != id) ∧
    (handleDeleteClient true true true id (some uid) store ui).ui.clients =
      (clientsQuery (store.filter (fun d => d.docId != id)) uid).map
        clientOfDoc :=
  ⟨rfl, rfl, rfl⟩

/-- Claim C6: a failed client fetch surfaces a transient error alert
and leaves the whole page state (in particular the prior local list)
in place; a successful fetch replaces the local list by the
owner-scoped query result. -/
theorem fetchClients_failure_keeps_list (uid : String)
    (store : List ClientDoc) (ui : PageState) :
    fetchClients (some uid) false store ui =
      (ui, ["Failed to fetch clients"]) ∧
    (fetchClients (some uid) true store ui).1 =
      { ui with clients := (clientsQuery store uid).map clientOfDoc } :=
  ⟨rfl, rfl⟩

/-- Claim C8: with a user present, the onboarding link is the fixed
base followed by the "/onboard/" segment and the user identifier, and
the computation is deterministic (independent of the previous link
state). -/
theorem onboardEffect_deterministic (baseUrl uid link link' : String) :
    onboardEffect (some uid) baseUrl link = baseUrl ++ "/onboard/" ++ uid ∧
    onboardEffect (some uid) baseUrl link =
      onboardEffect (some uid) baseUrl link' :=
  ⟨rfl, rfl⟩

/-- Claim C10: with no current user, the edit handler dereferences the
missing user while building its duplicate-check queries, so it falls
into the generic check-failure catch (no write, no store call),
whereas the add handler aborts up front with its dedicated
must-be-logged-in message. -/
theorem handleEditClient_needs_user (checkOk writeOk fetchOk : Bool)
    (freshId : String) (store : List ClientDoc) (cls : List Client)
    (m : Bool) (draft : ClientDraft) (buf : Client) :
    handleEditClient none checkOk writeOk fetchOk store
        (mkState cls m draft (some buf)) =
      { store := store, ui := mkState cls m draft (some buf),
        alerts := ["Error checking for duplicate clients."], calls := 0 } ∧
    handleAddClient none checkOk writeOk fetchOk freshId store
        (mkState cls m draft none) =
      { store := store, ui := mkState cls m draft none,
        alerts := ["You must be logged in to add a client."], calls := 0 } :=
  ⟨rfl, rfl⟩

end Claims

section ClaimC1

open ClientManagement

/-- Claim C1: if an existing client of the owner has a
case-insensitively equal email (the stored emails being in the
lower-cased form the write paths maintain) or an exactly equal phone,
the add aborts with a user-visible duplicate alert and writes nothing;
if neither check matches, a new document is appended with the email
lower-cased and the owner identifier attached. -/
theorem handleAddClient_duplicate_spec (uid freshId : String)
    (fetchOk : Bool) (store : List ClientDoc) (ui : PageState)
    (hnorm : ∀ c ∈ store, c.userId = uid → toLowerCase c.email = c.email) :
    (((∃ c ∈ store, c.userId = uid ∧ ciEq c.email ui.newClient.email) ∨
        (∃ c ∈ store, c.userId = uid ∧ c.phone = ui.newClient.phone)) →
      (handleAddClient (some uid) true true fetchOk freshId store ui).store =
          store ∧
      (handleAddClient (some uid) true true fetchOk freshId store ui).ui =
          ui ∧
      ((handleAddClient (some uid) true true fetchOk freshId store ui).alerts =
          ["A client with this email already exists."] ∨
        (handleAddClient (some uid) true true fetchOk freshId store ui).alerts =
          ["A client with this phone number already exists."])) ∧
    ((¬ ∃ c ∈ store, c.userId = uid ∧ ciEq c.email ui.newClient.email) →
      (¬ ∃ c ∈ store, c.userId = uid ∧ c.phone = ui.newClient.phone) →
      (handleAddClient (some uid) true true fetchOk freshId store ui).store =
        store ++ [{
          docId := freshId
          name := ui.newClient.name
          email := toLowerCase ui.newClient.email
          phone := ui.newClient.phone
          userId := uid }]) := by
  constructor
  · intro hdup
    cases hE : (emailDupQuery store uid ui.newClient.email).isEmpty with
    | false =>
      have hout : handleAddClient (some uid) true true fetchOk freshId store ui =
          { store := store, ui := ui,
            alerts := ["A client with this email already exists."],
            calls := 2 } := by
        simp [handleAddClient, hE]
      rw [hout]
      exact ⟨rfl, rfl, Or.inl rfl⟩
    | true =>
      have hP : (phoneDupQuery store uid ui.newClient.phone).isEmpty = false := by
        rcases hdup with h | h
        · exfalso
          rw [emailDup_bridge store uid ui.newClient.email hnorm] at h
          obtain ⟨c, hc, hu, he⟩ := h
          exact (emailDupQuery_empty_iff store uid ui.newClient.email).mp
            hE c hc hu he
        · obtain ⟨c, hc, hu, hp⟩ := h
          cases hP' : (phoneDupQuery store uid ui.newClient.phone).isEmpty with
          | false => rfl
          | true =>
            exact absurd hp
              ((phoneDupQuery_empty_iff store uid ui.newClient.phone).mp
                hP' c hc hu)
      have hout : handleAddClient (some uid) true true fetchOk freshId store ui =
          { store := store, ui := ui,
            alerts := ["A client with this phone number already exists."],
            calls := 2 } := by
        simp [handleAddClient, hE, hP]
      rw [hout]
      exact ⟨rfl, rfl, Or.inr rfl⟩
  · intro hne hnp
    have hE : (emailDupQuery store uid ui.newClient.email).isEmpty = true := by
      rw [emailDupQuery_empty_iff]
      intro c hc hu he
      exact hne ((emailDup_bridge store uid ui.newClient.email hnorm).mpr
        ⟨c, hc, hu, he⟩)
    have hP : (phoneDupQuery store uid ui.newClient.phone).isEmpty = true := by
      rw [phoneDupQuery_empty_iff]
      intro c hc hu hp
      exact hnp ⟨c, hc, hu, hp⟩
    simp [handleAddClient, hE, hP]

/-- Concrete instance of the C1 theorem: with one stored client
`a@x.com` for owner `u`, adding a draft with email `A@X.com` is
rejected with a duplicate alert and the store is unchanged
(the concrete scenario of the spec). -/
theorem handleAddClient_duplicate_spec_witness :
    (handleAddClient (some "u") true true true "d2"
        [{ docId := "d1", name := "A", email := "a@x.com", phone := "1",
           userId := "u" }]
        (mkState [] false
          { name := "B", email := "A@X.com", phone := "2" } none)).store =
      [{ docId := "d1", name := "A", email := "a@x.com", phone := "1",
         userId := "u" }] ∧
    (handleAddClient (some "u") true true true "d2"
        [{ docId := "d1", name := "A", email := "a@x.com", phone := "1",
           userId := "u" }]
        (mkState [] false
          { name := "B", email := "A@X.com", phone := "2" } none)).ui =
      mkState [] false { name := "B", email := "A@X.com", phone := "2" } none ∧
    ((handleAddClient (some "u") true true true "d2"
        [{ docId := "d1", name := "A", email := "a@x.com", phone := "1",
           userId := "u" }]
        (mkState [] false
          { name := "B", email := "A@X.com", phone := "2" } none)).alerts =
      ["A client with this email already exists."] ∨
     (handleAddClient (some "u") true true true "d2"
        [{ docId := "d1", name := "A", email := "a@x.com", phone := "1",
           userId := "u" }]
        (mkState [] false
          { name := "B", email := "A@X.com", phone := "2" } none)).alerts =
      ["A client with this phone number already exists."]) :=
  (handleAddClient_duplicate_spec "u" "d2" true
      [{ docId := "d1", name := "A", email := "a@x.com", phone := "1",
         userId := "u" }]
      (mkState [] false { name := "B", email := "A@X.com", phone := "2" } none)
      (by decide)).1
    (Or.inl (by decide))

end ClaimC1

section ClaimC3

open ClientManagement

/-- Claim C3: the edit duplicate check excludes the record's own
identifier.  If another client of the owner (different identifier)
carries a case-insensitively equal email (stored emails being in the
lower-cased form the write paths maintain), the edit is rejected with
no write; if every owner client matching the buffer email or phone is
the record itself, the edit writes the buffer and closes the edit
modal with the success alert. -/
theorem handleEditClient_excludes_self (uid : String) (fetchOk : Bool)
    (store : List ClientDoc) (cls : List Client) (m : Bool)
    (draft : ClientDraft) (buf : Client)
    (hnorm : ∀ c ∈ store, c.userId = uid → toLowerCase c.email = c.email) :
    ((∃ c ∈ store, c.userId = uid ∧ c.docId ≠ buf.id ∧ ciEq c.email buf.email) →
      (handleEditClient (some uid) true true fetchOk store
          (mkState cls m draft (some buf))).store = store ∧
      (handleEditClient (some uid) true true fetchOk store
          (mkState cls m draft (some buf))).ui =
        mkState cls m draft (some buf) ∧
      (handleEditClient (some uid) true true fetchOk store
          (mkState cls m draft (some buf))).alerts =
        ["Another client with this email already exists."]) ∧
    ((∀ c ∈ store, c.userId = uid →
        (ciEq c.email buf.email ∨ c.phone = buf.phone) → c.docId = buf.id) →
      (handleEditClient (some uid) true true fetchOk store
          (mkState cls m draft (some buf))).store =
        store.map (applyEditUpdate buf) ∧
      (handleEditClient (some uid) true true fetchOk store
          (mkState cls m draft (some buf))).ui.editingClient = none ∧
      (handleEditClient (some uid) true true fetchOk store
          (mkState cls m draft (some buf))).alerts.head? =
        some "Client updated successfully") := by
  constructor
  · intro hdup
    obtain ⟨c, hc, hu, hne, hci⟩ := hdup
    have hany : (emailDupQuery store uid buf.email).any
        (fun d => d.docId != buf.id) = true := by
      rw [emailEditDup_any_iff]
      refine ⟨c, hc, hu, ?_, hne⟩
      rw [← hnorm c hc hu]
      exact hci
    have hout : handleEditClient (some uid) true true fetchOk store
        (mkState cls m draft (some buf)) =
        { store := store, ui := mkState cls m draft (some buf),
          alerts := ["Another client with this email already exists."],
          calls := 2 } := by
      simp [handleEditClient, mkState, hany]
    rw [hout]
    exact ⟨rfl, rfl, rfl⟩
  · intro hself
    have hE : (emailDupQuery store uid buf.email).any
        (fun d => d.docId != buf.id) = false := by
      cases hE' : (emailDupQuery store uid buf.email).any
          (fun d => d.docId != buf.id) with
      | false => rfl
      | true =>
        exfalso
        obtain ⟨c, hc, hu, he, hne⟩ := (emailEditDup_any_iff
          store uid buf.email buf.id).mp hE'
        refine hne (hself c hc hu (Or.inl ?_))
        unfold ciEq
        rw [hnorm c hc hu, he]
    have hP : (phoneDupQuery store uid buf.phone).any
        (fun d => d.docId != buf.id) = false := by
      cases hP' : (phoneDupQuery store uid buf.phone).any
          (fun d => d.docId != buf.id) with
      | false => rfl
      | true =>
        exfalso
        obtain ⟨c, hc, hu, hp, hne⟩ := (phoneEditDup_any_iff
          store uid buf.phone buf.id).mp hP'
        exact hne (hself c hc hu (Or.inr hp))
    cases fetchOk with
    | true => simp [handleEditClient, mkState, hE, hP, fetchClients]
    | false => simp [handleEditClient, mkState, hE, hP, fetchClients]

/-- Concrete instance of the C3 theorem: with clients `a@x.com` (d1)
and `b@y.com` (d2) of owner `u`, editing d2's email to `A@X.com`
collides with d1 and is rejected with the store unchanged, while
editing d2 keeping its own email and phone reaches the write and
closes the edit modal. -/
theorem handleEditClient_excludes_self_witness :
    ((handleEditClient (some "u") true true true
        [{ docId := "d1", name := "A", email := "a@x.com", phone := "1",
           userId := "u" },
         { docId := "d2", name := "B", email := "b@y.com", phone := "2",
           userId := "u" }]
        (mkState [] false { name := "", email := "", phone := "" }
          (some { id := "d2", name := "B", email := "A@X.com",
                  phone := "2" }))).store =
      [{ docId := "d1", name := "A", email := "a@x.com", phone := "1",
         userId := "u" },
       { docId := "d2", name := "B", email := "b@y.com", phone := "2",
         userId := "u" }] ∧
     (handleEditClient (some "u") true true true
        [{ docId := "d1", name := "A", email := "a@x.com", phone := "1",
           userId := "u" },
         { docId := "d2", name := "B", email := "b@y.com", phone := "2",
           userId := "u" }]
        (mkState [] false { name := "", email := "", phone := "" }
          (some { id := "d2", name := "B", email := "A@X.com",
                  phone := "2" }))).ui =
      mkState [] false { name := "", email := "", phone := "" }
        (some { id := "d2", name := "B", email := "A@X.com",
                phone := "2" }) ∧
     (handleEditClient (some "u") true true true
        [{ docId := "d1", name := "A", email := "a@x.com", phone := "1",
           userId := "u" },
         { docId := "d2", name := "B", email := "b@y.com", phone := "2",
           userId := "u" }]
        (mkState [] false { name := "", email := "", phone := "" }
          (some { id := "d2", name := "B", email := "A@X.com",
                  phone := "2" }))).alerts =
      ["Another client with this email already exists."]) ∧
    ((handleEditClient (some "u") true true true
        [{ docId := "d1", name := "A", email := "a@x.com", phone := "1",
           userId := "u" },
         { docId := "d2", name := "B", email := "b@y.com", phone := "2",
           userId := "u" }]
        (mkState [] false { name := "", email := "", phone := "" }
          (some { id := "d2", name := "B", email := "b@y.com",
                  phone := "2" }))).ui.editingClient = none) :=
  ⟨(handleEditClient_excludes_self "u" true
      [{ docId := "d1", name := "A", email := "a@x.com", phone := "1",
         userId := "u" },
       { docId := "d2", name := "B", email := "b@y.com", phone := "2",
         userId := "u" }]
      [] false { name := "", email := "", phone := "" }
      { id := "d2", name := "B", email := "A@X.com", phone := "2" }
      (by decide)).1 (by decide),
   ((handleEditClient_excludes_self "u" true
      [{ docId := "d1", name := "A", email := "a@x.com", phone := "1",
         userId := "u" },
       { docId := "d2", name := "B", email := "b@y.com", phone := "2",
         userId := "u" }]
      [] false { name := "", email := "", phone := "" }
      { id := "d2", name := "B", email := "b@y.com", phone := "2" }
      (by decide)).2 (by decide)).2.1⟩

end ClaimC3

section ClaimC7

open ClientManagement

/-- Claim C7: when the duplicate checks pass and the store write
fails, add and edit each surface their transient failure alert and
leave everything — store, local list, modal flag and form buffer —
exactly as it was, so the user can retry; on a successful write the
add modal is closed with its buffer reset, and the edit buffer is
cleared. -/
theorem clientWrite_failure_recoverable (uid freshId : String)
    (fetchOk : Bool) (store : List ClientDoc) (cls : List Client)
    (m : Bool) (draft : ClientDraft) (buf : Client)
    (hde : (emailDupQuery store uid draft.email).isEmpty = true)
    (hdp : (phoneDupQuery store uid draft.phone).isEmpty = true)
    (hee : (emailDupQuery store uid buf.email).any
      (fun d => d.docId != buf.id) = false)
    (hep : (phoneDupQuery store uid buf.phone).any
      (fun d => d.docId != buf.id) = false) :
    handleAddClient (some uid) true false fetchOk freshId store
        (mkState cls m draft none) =
      { store := store, ui := mkState cls m draft none,
        alerts := ["Failed to add client. Please try again later."],
        calls := 3 } ∧
    handleEditClient (some uid) true false fetchOk store
        (mkState cls m draft (some buf)) =
      { store := store, ui := mkState cls m draft (some buf),
        alerts := ["Failed to update client. Please try again later."],
        calls := 3 } ∧
    (handleAddClient (some uid) true true fetchOk freshId store
        (mkState cls m draft none)).ui.isModalOpen = false ∧
    (handleAddClient (some uid) true true fetchOk freshId store
        (mkState cls m draft none)).ui.newClient =
      { name := "", email := "", phone := "" } ∧
    (handleEditClient (some uid) true true fetchOk store
        (mkState cls m draft (some buf))).ui.editingClient = none := by
  refine ⟨?_, ?_, ?_, ?_, ?_⟩
  · simp [handleAddClient, mkState, hde, hdp]
  · simp [handleEditClient, mkState, hee, hep]
  · cases fetchOk with
    | true => simp [handleAddClient, mkState, hde, hdp, fetchClients]
    | false => simp [handleAddClient, mkState, hde, hdp, fetchClients]
  · cases fetchOk with
    | true => simp [handleAddClient, mkState, hde, hdp, fetchClients]
    | false => simp [handleAddClient, mkState, hde, hdp, fetchClients]
  · cases fetchOk with
    | true => simp [handleEditClient, mkState, hee, hep, fetchClients]
    | false => simp [handleEditClient, mkState, hee, hep, fetchClients]

/-- Concrete instance of the C7 theorem: over a one-client store with
no conflicting draft, a failing add write leaves the store, the list,
the open modal and the buffer untouched and shows the transient
failure alert. -/
theorem clientWrite_failure_recoverable_witness :
    handleAddClient (some "u") true false true "f1"
        [{ docId := "d1", name := "A", email := "a@x.com", phone := "1",
           userId := "u" }]
        (mkState [] true { name := "B", email := "b@y.com", phone := "2" }
          none) =
      { store := [{ docId := "d1", name := "A", email := "a@x.com",
                    phone := "1", userId := "u" }],
        ui := mkState [] true
          { name := "B", email := "b@y.com", phone := "2" } none,
        alerts := ["Failed to add client. Please try again later."],
        calls := 3 } :=
  (clientWrite_failure_recoverable "u" "f1" true
      [{ docId := "d1", name := "A", email := "a@x.com", phone := "1",
         userId := "u" }]
      [] true { name := "B", email := "b@y.com", phone := "2" }
      { id := "d1", name := "A", email := "a@x.com", phone := "1" }
      (by decide) (by decide) (by decide) (by decide)).1

end ClaimC7

section ClaimC9

open ClientManagement Tasks

/-- Claim C9: the edit writes spread the entire local record into the
document body.  A client edit that reaches the write stores the buffer
identifier in an `id` body field next to the lower-cased email, and
carries any onboarding metadata held in the buffer into the body; a
task edit likewise stores the buffer identifier plus the fresh update
timestamp. -/
theorem editWrite_spreads_record (uid now freshId : String)
    (fetchOk : Bool) (store : List ClientDoc) (cls : List Client)
    (m : Bool) (draft : ClientDraft) (buf : Client)
    (hee : (emailDupQuery store uid buf.email).any
      (fun d => d.docId != buf.id) = false)
    (hep : (phoneDupQuery store uid buf.phone).any
      (fun d => d.docId != buf.id) = false)
    (tstore : List TaskDoc) (tts : List Task) (tm : Bool)
    (tdraft : TaskDraft) (t : Task) :
    (handleEditClient (some uid) true true fetchOk store
        (mkState cls m draft (some buf))).store =
      store.map (applyEditUpdate buf) ∧
    (∀ d : ClientDoc, d.docId = buf.id →
      (applyEditUpdate buf d).idField = some buf.id ∧
      (applyEditUpdate buf d).email = toLowerCase buf.email ∧
      (∀ v, buf.selfOnboarded = some v →
        (applyEditUpdate buf d).selfOnboarded = some v) ∧
      (∀ v, buf.onboardedAt = some v →
        (applyEditUpdate buf d).onboardedAt = some v) ∧
      (∀ v, buf.status = some v →
        (applyEditUpdate buf d).status = some v)) ∧
    (handleAddTask (some uid) true fetchOk now freshId tstore
        (mkTasksState tts tm tdraft (some t))).1 =
      tstore.map (applyTaskEdit t now) ∧
    (∀ d : TaskDoc, d.docId = t.id →
      (applyTaskEdit t now d).idField = some t.id ∧
      (applyTaskEdit t now d).updatedAt = some now) := by
  refine ⟨?_, ?_, rfl, ?_⟩
  · simp [handleEditClient, mkState, hee, hep]
  · intro d hd
    have hbe : (d.docId == buf.id) = true := beq_iff_eq.mpr hd
    refine ⟨?_, ?_, ?_, ?_, ?_⟩
    · simp [applyEditUpdate, hbe]
    · simp [applyEditUpdate, hbe]
    · intro v hv
      simp [applyEditUpdate, hbe, hv, Option.orElse]
    · intro v hv
      simp [applyEditUpdate, hbe, hv, Option.orElse]
    · intro v hv
      simp [applyEditUpdate, hbe, hv, Option.orElse]
  · intro d hd
    have hbe : (d.docId == t.id) = true := beq_iff_eq.mpr hd
    exact ⟨by simp [applyTaskEdit, hbe], by simp [applyTaskEdit, hbe]⟩

/-- Concrete instance of the C9 theorem: a client edit write puts the
buffer identifier and the approval metadata into the document body,
and a task edit write puts the identifier and the update timestamp
there. -/
theorem editWrite_spreads_record_witness :
    (applyEditUpdate
        { id := "d1", name := "A", email := "B@Y.com", phone := "1",
          status := some "approved" }
        { docId := "d1", name := "A", email := "a@x.com", phone := "1",
          userId := "u" }).idField = some "d1" ∧
    (applyEditUpdate
        { id := "d1", name := "A", email := "B@Y.com", phone := "1",
          status := some "approved" }
        { docId := "d1", name := "A", email := "a@x.com", phone := "1",
          userId := "u" }).status = some "approved" ∧
    (applyTaskEdit
        { id := "t1", title := "T", description := "d",
          status := "in-progress", priority := "low",
          createdAt := "2026-01-01", userId := "u" }
        "2026-02-02"
        { docId := "t1", title := "T", description := "d",
          status := "todo", priority := "low",
          createdAt := "2026-01-01", userId := "u" }).updatedAt =
      some "2026-02-02" := by
  have h := editWrite_spreads_record "u" "2026-02-02" "f1" true
    [{ docId := "d1", name := "A", email := "a@x.com", phone := "1",
       userId := "u" }]
    [] false { name := "", email := "", phone := "" }
    { id := "d1", name := "A", email := "B@Y.com", phone := "1",
      status := some "approved" }
    (by decide) (by decide)
    [] [] false Tasks.emptyDraft
    { id := "t1", title := "T", description := "d",
      status := "in-progress", priority := "low",
      createdAt := "2026-01-01", userId := "u" }
  exact ⟨(h.2.1 _ rfl).1, ((h.2.1 _ rfl).2.2.2.2 "approved" rfl),
    ((h.2.2.2 _ rfl).2)⟩

end ClaimC9
